import Mathlib

/-!
Shallow embedding of the upload-reconciliation core of the `weatherart`
repository (files `src/tv_utils.py` and `src/main.py`), together with
theorems settling the frozen claims about it.

Modelling conventions:
* Python values appearing in catalog records are modelled by `PyVal`:
  numbers (`int`/`float`, modelled exactly as rationals), strings, the
  value `None` (which also stands for an absent key, exactly as
  `dict.get` does), and an opaque `other` for any further type.
* A catalog entry returned by `art.available(...)` is either a record
  (Python `dict`, modelled as an association list) or some non-dict value.
* `datetime.strptime(value, fmt).timestamp()` is modelled by an exact
  parser for the two format strings `"%Y:%m:%d %H:%M:%S"` and
  `"%Y-%m-%d %H:%M:%S"` (following the regexes CPython's `_strptime`
  builds for `%Y %m %d %H %M %S`, including 1-or-2-digit fields and the
  constructor's range/day-of-month validation), with the epoch computed
  for UTC; only whole seconds arise, embedded into `ℚ`.
* File I/O in `load_last_id`/`save_last_id` is modelled by passing the
  persisted file's state explicitly: `Option String` is the content of
  the fixed file (`none` = file absent / unreadable), and a
  `WriteOutcome` says whether the write succeeds, fails at
  `open(path, "w")` (the file is untouched), or fails after `open`
  (the open has already truncated the file, which is left holding
  whatever prefix of the id reached it).  That the functions are total
  models that failures are swallowed rather than raised.
-/

/-- A Python value as it occurs in catalog records.  `vNum` covers both
`int` and `float` (CPython compares them numerically, which `ℚ` equality
reproduces); `vNone` is `None`, also produced by `dict.get` on a missing
key; `vOther` is any other object. -/
inductive PyVal where
  | vNum (q : ℚ)
  | vStr (s : String)
  | vNone
  | vOther
  deriving DecidableEq, Repr

/-- Python truthiness of a `PyVal` (`if content_id:` etc.).  Opaque
non-`None` objects are taken to be truthy, as most Python objects are. -/
def truthy : PyVal → Bool
  | .vNum q => decide (q ≠ 0)
  | .vStr s => decide (s ≠ "")
  | .vNone => false
  | .vOther => true

/-- A Python `dict` record, as an association list (keys unique in use). -/
abbrev Item := List (String × PyVal)

/-- `item.get(key)`: the first binding of `key`, or `None` when absent —
matching `dict.get`'s default of `None`. -/
def dictGet (it : Item) (k : String) : PyVal :=
  match it.find? (fun kv => kv.1 == k) with
  | some kv => kv.2
  | none => .vNone

/-- One element of the list returned by `art.available(category=...)`:
either a record or some non-dict value (which the code filters out with
`isinstance(item, dict)`). -/
inductive Entry where
  | dict (it : Item)
  | nondict
  deriving DecidableEq, Repr

/-- The record carried by an entry, if it is one. -/
def Entry.item? : Entry → Option Item
  | .dict it => some it
  | .nondict => none

/-- `isinstance(item, dict)`. -/
def isDictB : Entry → Bool
  | .dict _ => true
  | .nondict => false

/-- Numeric value of a digit character. -/
def digitVal (c : Char) : ℕ := c.toNat - 48

/-- Models the `%Y` fragment of `_strptime`'s regex: exactly four digits. -/
def parse4 : List Char → Option (ℕ × List Char)
  | a :: b :: c :: d :: rest =>
    if a.isDigit && b.isDigit && c.isDigit && d.isDigit then
      some (1000 * digitVal a + 100 * digitVal b + 10 * digitVal c + digitVal d, rest)
    else none
  | _ => none

/-- Models a 1-or-2-digit field of `_strptime`'s regexes (`%m`, `%d`,
`%H`, `%M`, `%S`): greedily take two digits when their value satisfies
`validTwo`, otherwise one digit when it satisfies `validOne`. -/
def parse2or1 (validTwo validOne : ℕ → Bool) : List Char → Option (ℕ × List Char)
  | a :: b :: rest =>
    if a.isDigit && b.isDigit && validTwo (10 * digitVal a + digitVal b) then
      some (10 * digitVal a + digitVal b, rest)
    else if a.isDigit && validOne (digitVal a) then
      some (digitVal a, b :: rest)
    else none
  | [a] => if a.isDigit && validOne (digitVal a) then some (digitVal a, []) else none
  | [] => none

/-- A literal character of the format string. -/
def expectChar (c : Char) : List Char → Option (List Char)
  | x :: rest => if x = c then some rest else none
  | [] => none

/-- Gregorian leap year, as `calendar.isleap`. -/
def isLeap (y : ℕ) : Bool := y % 4 == 0 && (y % 100 != 0 || y % 400 == 0)

/-- Days in a month, as `datetime`'s validation uses. -/
def daysInMonth (y m : ℕ) : ℕ :=
  if m = 2 then (if isLeap y then 29 else 28)
  else if m = 4 ∨ m = 6 ∨ m = 9 ∨ m = 11 then 30
  else 31

/-- Models `datetime.strptime(s, "%Y<sep>%m<sep>%d %H:%M:%S")`: the
field regexes, the whole-string requirement ("unconverted data
remains"), and the `datetime` constructor's validation
(`MINYEAR ≤ year`, valid day of month, `second ≤ 59`). -/
def parseDatetime (sep : Char) (s : String) : Option (ℕ × ℕ × ℕ × ℕ × ℕ × ℕ) := do
  let cs := s.toList
  let (y, cs) ← parse4 cs
  let cs ← expectChar sep cs
  let (mo, cs) ← parse2or1 (fun v => 1 ≤ v && v ≤ 12) (fun v => 1 ≤ v && v ≤ 9) cs
  let cs ← expectChar sep cs
  let (d, cs) ← parse2or1 (fun v => 1 ≤ v && v ≤ 31) (fun v => 1 ≤ v && v ≤ 9) cs
  let cs ← expectChar ' ' cs
  let (hh, cs) ← parse2or1 (fun v => v ≤ 23) (fun _ => true) cs
  let cs ← expectChar ':' cs
  let (mi, cs) ← parse2or1 (fun v => v ≤ 59) (fun _ => true) cs
  let cs ← expectChar ':' cs
  let (ss, cs) ← parse2or1 (fun v => v ≤ 61) (fun _ => true) cs
  match cs with
  | _ :: _ => none
  | [] =>
    if 1 ≤ y ∧ d ≤ daysInMonth y mo ∧ ss ≤ 59 then some (y, mo, d, hh, mi, ss) else none

/-- Days from 1970-01-01 to year `y`, month `m`, day `d` (proleptic
Gregorian, `y ≥ 1`); the standard days-from-civil computation. -/
def daysFromCivil (y m d : ℕ) : ℤ :=
  let y' := if m ≤ 2 then y - 1 else y
  let era := y' / 400
  let yoe := y' % 400
  let doy := (153 * (if 2 < m then m - 3 else m + 9) + 2) / 5 + d - 1
  let doe := yoe * 365 + yoe / 4 - yoe / 100 + doy
  (era * 146097 + doe : ℕ) - 719468

/-- Seconds since the epoch of a civil datetime (UTC). -/
def epochOfDatetime : ℕ × ℕ × ℕ × ℕ × ℕ × ℕ → ℤ
  | (y, mo, d, hh, mi, ss) => 86400 * daysFromCivil y mo d + 3600 * hh + 60 * mi + ss

/-- Models the loop
`for fmt in ("%Y:%m:%d %H:%M:%S", "%Y-%m-%d %H:%M:%S"): ...
datetime.strptime(value, fmt).timestamp()` in `score`
(`src/tv_utils.py`): the colon-delimited format is tried first, then
the hyphen-delimited one; `none` when both raise `ValueError`.
`timestamp()` is taken with the process in UTC. -/
def strptimeTimestamp (s : String) : Option ℤ :=
  match parseDatetime ':' s with
  | some dt => some (epochOfDatetime dt)
  | none =>
    match parseDatetime '-' s with
    | some dt => some (epochOfDatetime dt)
    | none => none

/-- The field priority order of `score` in `pick_latest_content_id`. -/
def scoreKeys : List String :=
  ["date", "create_time", "added_time", "timestamp", "content_time"]

/-- The body of `score` (`src/tv_utils.py` lines 130–141): walk the keys
in order; a numeric value is returned directly; a string value is
returned via `strptime` when one of the two formats matches, otherwise
the walk continues with the next key; when the keys run out the score
is `0`. -/
def scoreAux : List String → Item → ℚ
  | [], _ => 0
  | k :: ks, it =>
    match dictGet it k with
    | .vNum q => q
    | .vStr s =>
      match strptimeTimestamp s with
      | some t => (t : ℚ)
      | none => scoreAux ks it
    | .vNone => scoreAux ks it
    | .vOther => scoreAux ks it

/-- `score(item)` of `pick_latest_content_id`. -/
def score (it : Item) : ℚ := scoreAux scoreKeys it

/-- Insert an item into a list already sorted by descending score,
before the first element whose score is `≤` its own.  Each element is
inserted in front of the later, equal-scored ones, so `sortByScoreDesc`
below is exactly the stable descending sort that CPython's
`sorted(items, key=score, reverse=True)` computes (a stable sort for a
total preorder is unique). -/
def insertTop (x : Item) : List Item → List Item
  | [] => [x]
  | y :: ys => if score y ≤ score x then x :: y :: ys else y :: insertTop x ys

/-- `sorted(items, key=score, reverse=True)`. -/
def sortByScoreDesc : List Item → List Item
  | [] => []
  | x :: xs => insertTop x (sortByScoreDesc xs)

/-- The record entries of a snapshot:
`[item for item in items if isinstance(item, dict)]`. -/
def validDicts (l : List Entry) : List Item := l.filterMap Entry.item?

/-- `pick_latest_content_id(items)` (`src/tv_utils.py` lines 125–144):
keep the dict entries, return `None` on an empty collection, otherwise
the `content_id` value of the top item of the stable descending sort
by `score` (itself `None` when the winner lacks the key). -/
def pick_latest_content_id (entries : List Entry) : PyVal :=
  match sortByScoreDesc (validDicts entries) with
  | [] => .vNone
  | top :: _ => dictGet top "content_id"

/-- The errors the upload path can carry: the `TimeoutError` built by
`upload_with_timeout` and any exception raised inside `art.upload`. -/
inductive Err where
  | timeoutError (msg : String)
  | uploadError (msg : String)
  deriving DecidableEq, Repr

/-- The `result` cell of `upload_with_timeout`, written once by the
worker thread. -/
structure UploadCell where
  content_id : PyVal
  error : Option Err
  deriving DecidableEq, Repr

/-- The worker body `runner` of `upload_with_timeout`: on a normal
return it stores the upload's result in `content_id`; on an exception
it stores the exception in `error`. -/
def runner (outcome : Except Err PyVal) (cell : UploadCell) : UploadCell :=
  match outcome with
  | .ok cid => { cell with content_id := cid }
  | .error e => { cell with error := some e }

/-- `upload_with_timeout` (`src/tv_utils.py` lines 106–122).  The
thread scheduling is abstracted into `completed : Bool` — whether the
worker finished within `thread.join(upload_timeout_s)` — and
`outcome`, the behaviour of `art.upload` when it does run to
completion.  If the worker is still alive after the join, the function
returns `None` with a `TimeoutError`; otherwise it returns the cell's
two fields. -/
def upload_with_timeout (completed : Bool) (outcome : Except Err PyVal) :
    PyVal × Option Err :=
  let init : UploadCell := ⟨.vNone, none⟩
  if completed then
    let cell := runner outcome init
    (cell.content_id, cell.error)
  else
    (.vNone, some (.timeoutError "Upload timed out waiting for image_added event"))

/-- The set comprehension building `before_ids` (`src/main.py` lines
157–161): `item.get("content_id")` of every dict entry — including the
`None` a dict lacking the key contributes.  Modelled as a list;
membership is all the code uses. -/
def before_ids (beforeList : List Entry) : List PyVal :=
  beforeList.filterMap fun e =>
    match e with
    | .dict it => some (dictGet it "content_id")
    | .nondict => none

/-- The filter of the `new_items` comprehension (`src/main.py` lines
181–186): `isinstance(item, dict) and item.get("content_id") not in
before_ids`. -/
def entryNewPred (beforeList : List Entry) (e : Entry) : Bool :=
  match e with
  | .dict it => !decide (dictGet it "content_id" ∈ before_ids beforeList)
  | .nondict => false

/-- The comprehension building `new_items` (`src/main.py` lines
181–186): the dict entries of `after_list` whose `content_id` value is
not in `before_ids`. -/
def new_items (beforeList afterList : List Entry) : List Entry :=
  afterList.filter (entryNewPred beforeList)

/-- Python `a or b` on the two `pick_latest_content_id` results. -/
def pyOr (a b : PyVal) : PyVal := if truthy a then a else b

/-- The `content_id` in hand after the `if upload_error:` block
(`src/main.py` lines 170–172): an upload error clears it to `None`. -/
def effContentId (u : PyVal × Option Err) : PyVal :=
  match u.2 with
  | some _ => .vNone
  | none => u.1

/-- `if last_id and last_id != content_id:` (`src/main.py` line 196) —
the previously persisted id the code attempts to `delete`, if any. -/
def deleteDecision (lastId : Option String) (cid : PyVal) : Option String :=
  match lastId with
  | some l => if l ≠ "" ∧ PyVal.vStr l ≠ cid then some l else none
  | none => none

/-- Observable effects of one run of the reconciliation logic. -/
structure ReconResult where
  /-- whether `art_query.available(...)` was called a second time
  (the after-snapshot fetch at `src/main.py` line 180) -/
  afterListed : Bool
  /-- `some new_items` when the diff was computed, `none` when diffing
  was skipped -/
  newItems : Option (List Entry)
  /-- the id passed to `art_query.select_image`, when a selection
  happens -/
  selected : Option PyVal
  /-- the id passed to `save_last_id`, when one is persisted -/
  saved : Option PyVal
  /-- the stale id whose `delete` is attempted, when one is -/
  deleteAttempted : Option String
  deriving DecidableEq, Repr

/-- The reconciliation logic of `test_upload` (`src/main.py` lines
154–204), from `last_id = load_last_id()` onwards.  `lastId` is the
loaded persisted id, `beforeList` the pre-upload snapshot
(`available(...) or []`), `u` the pair `upload_with_timeout` returned,
and `afterList` the snapshot the second `available(...)` call would
return (consulted only on the no-id path; `afterListed` records
whether it was).  Logging and the best-effort `art_upload.close()` are
elided; the select/save/delete calls and the diff are recorded in the
result.  `reconcileNoId` is the `if not content_id:` block together
with the select/save/delete epilogue; `reconcile` is the whole
post-upload sequence. -/
def reconcileNoId (lastId : Option String) (beforeList afterList : List Entry) :
    ReconResult :=
  let nis := new_items beforeList afterList
  let cid2 := pyOr (pick_latest_content_id nis) (pick_latest_content_id afterList)
  if truthy cid2 then
    { afterListed := true
      newItems := some nis
      selected := some cid2
      saved := some cid2
      deleteAttempted := deleteDecision lastId cid2 }
  else
    { afterListed := true
      newItems := some nis
      selected := none
      saved := none
      deleteAttempted := none }

def reconcile (lastId : Option String) (beforeList : List Entry)
    (u : PyVal × Option Err) (afterList : List Entry) : ReconResult :=
  let cid1 := effContentId u
  if truthy cid1 then
    { afterListed := false
      newItems := none
      selected := some cid1
      saved := some cid1
      deleteAttempted := deleteDecision lastId cid1 }
  else
    reconcileNoId lastId beforeList afterList

/-- Python's `str.strip()` with no argument: remove leading and
trailing whitespace characters. -/
def pyStrip (s : String) : String :=
  ⟨((s.data.dropWhile Char.isWhitespace).reverse.dropWhile Char.isWhitespace).reverse⟩

/-- `load_last_id` (`src/tv_utils.py` lines 147–153).  `file` is the
content of the fixed persistence file, `none` when opening it raises
`OSError` (absent/unreadable).  The read value is stripped of
surrounding whitespace and `value or None` turns an empty result into
`None`. -/
def load_last_id (file : Option String) : Option String :=
  match file with
  | none => none
  | some content =>
    let value := pyStrip content
    if value = "" then none else some value

/-- How one `save_last_id` attempt can go.  `open(path, "w")`
truncates the file as soon as it succeeds, so the two `OSError` sites
inside the `try` block leave different file states: a failure at
`open` leaves the file untouched, while a failure during the
write/flush/close finds the file already truncated, holding whatever
prefix of the id (`written`, possibly empty) reached it before the
error. -/
inductive WriteOutcome where
  | ok
  | openFailed
  | writeFailed (written : String)
  deriving DecidableEq, Repr

/-- `save_last_id` (`src/tv_utils.py` lines 156–161).  Returns the new
file state for each `WriteOutcome`; every `OSError` is swallowed
(`pass`), which totality models — no exception escapes, but a failed
attempt does not restore the file: only a failure at `open` leaves it
as it was. -/
def save_last_id (content_id : String) (w : WriteOutcome) (file : Option String) :
    Option String :=
  match w with
  | .ok => some content_id
  | .openFailed => file
  | .writeFailed written => some written

/-- The score contribution a single field would make, if it qualifies:
`some q` for a numeric value, the parsed epoch for a string one of the
two formats accepts, `none` otherwise.  Used to state what `score`
computes. -/
def fieldScoreValue (it : Item) (k : String) : Option ℚ :=
  match dictGet it k with
  | .vNum q => some q
  | .vStr s => (strptimeTimestamp s).map (fun t => (t : ℚ))
  | .vNone => none
  | .vOther => none

/-- The amended description of the recency score: the first field in
priority order whose value qualifies (numeric, or a string matching
one of the two formats) determines the score; zero when no field
qualifies. -/
def scoreSpec (it : Item) : ℚ :=
  (scoreKeys.filterMap (fieldScoreValue it)).headD 0

/-- Modelled from the spec's words (§4.2): "Items lacking a
`content_id`, or not representable as a record, are excluded from both
snapshots entirely."  A snapshot's valid items are its dict entries
whose `content_id` value is not `None` (i.e. the key is present). -/
def specValidItems (l : List Entry) : List Entry :=
  l.filter fun e =>
    match e with
    | .dict it => !decide (dictGet it "content_id" = .vNone)
    | .nondict => false

/-- Modelled from the spec's words (§4.2): the content ids of a
snapshot's valid items. -/
def specValidIds (l : List Entry) : List PyVal :=
  (specValidItems l).filterMap fun e =>
    match e with
    | .dict it => some (dictGet it "content_id")
    | .nondict => none

/-- First element attaining the maximal score: the recursive
characterization of the head of `sortByScoreDesc`. -/
def pickTop : List Item → Option Item
  | [] => none
  | x :: xs =>
    match pickTop xs with
    | none => some x
    | some y => if score y ≤ score x then some x else some y

/-! ### Helper lemmas -/

theorem scoreAux_eq_filterMap (ks : List String) (it : Item) :
    scoreAux ks it = (ks.filterMap (fieldScoreValue it)).headD 0 := by
  induction ks with
  | nil => rfl
  | cons k ks ih =>
    rw [List.filterMap_cons]
    cases hv : dictGet it k with
    | vNum q => simp [scoreAux, fieldScoreValue, hv]
    | vStr s =>
      cases hp : strptimeTimestamp s with
      | none => simp [scoreAux, fieldScoreValue, hv, hp, ih]
      | some t => simp [scoreAux, fieldScoreValue, hv, hp]
    | vNone => simp [scoreAux, fieldScoreValue, hv, ih]
    | vOther => simp [scoreAux, fieldScoreValue, hv, ih]

theorem insertTop_head (x : Item) (l : List Item) :
    (insertTop x l).head? =
      match l with
      | [] => some x
      | y :: _ => if score y ≤ score x then some x else some y := by
  cases l with
  | nil => rfl
  | cons y ys =>
    by_cases hc : score y ≤ score x <;> simp [insertTop, hc]

theorem sortByScoreDesc_head (l : List Item) :
    (sortByScoreDesc l).head? = pickTop l := by
  induction l with
  | nil => rfl
  | cons x xs ih =>
    show (insertTop x (sortByScoreDesc xs)).head? = pickTop (x :: xs)
    rw [insertTop_head]
    cases hs : sortByScoreDesc xs with
    | nil =>
      have h0 : pickTop xs = none := by rw [← ih, hs]; rfl
      simp [pickTop, h0]
    | cons y ys =>
      have h0 : pickTop xs = some y := by rw [← ih, hs]; rfl
      simp [pickTop, h0]

theorem pickTop_first_argmax (l : List Item) (hl : l ≠ []) :
    ∃ i, ∃ hi : i < l.length,
      pickTop l = some (l.get ⟨i, hi⟩) ∧
      (∀ j, ∀ hj : j < l.length,
        score (l.get ⟨j, hj⟩) ≤ score (l.get ⟨i, hi⟩)) ∧
      (∀ j, ∀ hj : j < l.length, j < i →
        score (l.get ⟨j, hj⟩) < score (l.get ⟨i, hi⟩)) := by
  induction l with
  | nil => exact absurd rfl hl
  | cons x xs ih =>
    by_cases hxs : xs = []
    · subst hxs
      refine ⟨0, by simp, rfl, ?_, ?_⟩
      · intro j hj
        rcases j with _ | j
        · exact le_refl _
        · simp at hj
      · intro j hj hj0
        omega
    · obtain ⟨i, hi, hp, hmax, hstrict⟩ := ih hxs
      have hcons : pickTop (x :: xs) =
          if score (xs.get ⟨i, hi⟩) ≤ score x then some x
          else some (xs.get ⟨i, hi⟩) := by
        simp [pickTop, hp]
      by_cases hc : score (xs.get ⟨i, hi⟩) ≤ score x
      · refine ⟨0, by simp, ?_, ?_, ?_⟩
        · rw [hcons, if_pos hc]; rfl
        · intro j hj
          rcases j with _ | j
          · exact le_refl _
          · have hj' : j < xs.length := by simpa using hj
            exact le_trans (hmax j hj') hc
        · intro j hj hj0
          omega
      · push_neg at hc
        refine ⟨i + 1, by simpa using Nat.succ_lt_succ hi, ?_, ?_, ?_⟩
        · rw [hcons, if_neg (not_le.mpr hc)]; rfl
        · intro j hj
          rcases j with _ | j
          · exact le_of_lt hc
          · have hj' : j < xs.length := by simpa using hj
            exact hmax j hj'
        · intro j hj hj0
          rcases j with _ | j
          · exact hc
          · have hj' : j < xs.length := by simpa using hj
            exact hstrict j hj' (by omega)

theorem new_items_self (l : List Entry) : new_items l l = [] := by
  unfold new_items
  rw [List.filter_eq_nil_iff]
  intro e he
  cases e with
  | nondict => simp [entryNewPred]
  | dict it =>
    have hm : dictGet it "content_id" ∈ before_ids l :=
      List.mem_filterMap.mpr ⟨.dict it, he, rfl⟩
    simp [entryNewPred, hm]

theorem pick_latest_nil : pick_latest_content_id [] = .vNone := rfl

theorem reconcileNoId_eq (lastId : Option String) (beforeList afterList : List Entry) :
    reconcileNoId lastId beforeList afterList =
      if truthy (pyOr (pick_latest_content_id (new_items beforeList afterList))
          (pick_latest_content_id afterList)) = true then
        { afterListed := true
          newItems := some (new_items beforeList afterList)
          selected := some (pyOr (pick_latest_content_id (new_items beforeList afterList))
            (pick_latest_content_id afterList))
          saved := some (pyOr (pick_latest_content_id (new_items beforeList afterList))
            (pick_latest_content_id afterList))
          deleteAttempted := deleteDecision lastId
            (pyOr (pick_latest_content_id (new_items beforeList afterList))
              (pick_latest_content_id afterList)) }
      else
        { afterListed := true
          newItems := some (new_items beforeList afterList)
          selected := none
          saved := none
          deleteAttempted := none } := rfl

theorem reconcile_falsy (lastId : Option String) (beforeList : List Entry)
    (u : PyVal × Option Err) (afterList : List Entry)
    (h1 : truthy (effContentId u) = false) :
    reconcile lastId beforeList u afterList =
      reconcileNoId lastId beforeList afterList := by
  simp [reconcile, h1]

/-! ### Claim C4 — recency score field probing -/

/-- Counterexample to claim C4 as stated: in
`{date: "not a date", timestamp: 5}` the first field of the priority
list that is present (`date`) is a string matching neither format, yet
the score is `5`, not `0` — `score` falls through to the later
`timestamp` field instead of stopping. -/
theorem score_first_field_unparseable_uses_later :
    dictGet [("date", PyVal.vStr "not a date"), ("timestamp", PyVal.vNum 5)] "date"
        = PyVal.vStr "not a date" ∧
    strptimeTimestamp "not a date" = none ∧
    score [("date", PyVal.vStr "not a date"), ("timestamp", PyVal.vNum 5)] = 5 ∧
    (5 : ℚ) ≠ 0 := by
  refine ⟨rfl, rfl, rfl, by norm_num⟩

/-- Claim C4 (corrected): the recency score is determined by the first
field in the priority order `date`, `create_time`, `added_time`,
`timestamp`, `content_time` whose value qualifies — a numeric value is
used directly, a string value is parsed against the colon-delimited
then the hyphen-delimited datetime format and the epoch used; a field
whose value is an unparseable string (or neither number nor string) is
skipped and the later fields in the list ARE consulted; the score is
zero only when no field qualifies. -/
theorem score_eq_scoreSpec : ∀ it : Item, score it = scoreSpec it :=
  fun it => scoreAux_eq_filterMap scoreKeys it

/-! ### Claim C8 — bounded upload -/

/-- Claim C8 (confirmed): `upload_with_timeout` returns `None` together
with a timeout-kind error whenever the worker has not completed within
the timeout, and otherwise propagates the upload's own content_id or
its error unchanged. -/
theorem upload_with_timeout_spec :
    ∀ (completed : Bool) (outcome : Except Err PyVal),
      upload_with_timeout completed outcome =
        match completed, outcome with
        | false, _ =>
          (.vNone, some (.timeoutError "Upload timed out waiting for image_added event"))
        | true, .ok cid => (cid, none)
        | true, .error e => (.vNone, some e) := by
  intro completed outcome
  cases completed <;> cases outcome <;> rfl

/-! ### Claim C9 — persistence round-trip -/

/-- Counterexample to claim C9 as stated: saving the id `" x2 "` and
reading it back yields `"x2"`, not the same string — `load_last_id`
strips surrounding whitespace, so the round-trip is not the identity
on every id. -/
theorem save_then_load_strips :
    load_last_id (save_last_id " x2 " WriteOutcome.ok none) = some "x2" ∧
    (" x2 " : String) ≠ "x2" := by
  constructor
  · rfl
  · decide

/-- Claim C9 (corrected): saving a content_id (with the write
succeeding) and then reading yields that id stripped of surrounding
whitespace (`None` when blank) — in particular exactly the saved id
whenever it is nonempty and has no surrounding whitespace; reading
when the persistence file is absent yields `None` rather than an
error; and a write failure is swallowed — no exception escapes
`save_last_id` (it is total over every `WriteOutcome`) — though it is
not harmless to the file: a failure at `open` leaves the file
unchanged, while a failure after `open` leaves the file truncated to
whatever prefix of the id was written, since `open(path, "w")`
truncates before writing. -/
theorem persistence_roundtrip :
    ∀ (cid : String) (file : Option String),
      load_last_id (save_last_id cid WriteOutcome.ok file) =
        (if pyStrip cid = "" then none else some (pyStrip cid)) ∧
      (pyStrip cid = cid → cid ≠ "" →
        load_last_id (save_last_id cid WriteOutcome.ok file) = some cid) ∧
      load_last_id none = none ∧
      save_last_id cid WriteOutcome.openFailed file = file ∧
      (∀ written : String,
        save_last_id cid (WriteOutcome.writeFailed written) file = some written) := by
  intro cid file
  refine ⟨rfl, ?_, rfl, rfl, fun _ => rfl⟩
  intro h1 h2
  show (if pyStrip cid = "" then none else some (pyStrip cid)) = some cid
  rw [h1, if_neg h2]

theorem persistence_roundtrip_witness :
    pyStrip "x2" = "x2" ∧ ("x2" : String) ≠ "" ∧
    load_last_id (save_last_id "x2" WriteOutcome.ok none) = some "x2" :=
  ⟨by decide, by decide, (persistence_roundtrip "x2" none).2.1 (by decide) (by decide)⟩

/-! ### Claim C10 — load_last_id on blank content -/

/-- Claim C10 (confirmed): `load_last_id` yields `None` not only when
the persistence file is absent but also when the file exists and its
content is empty or whitespace-only; any stored value is stripped of
surrounding whitespace before being returned. -/
theorem load_last_id_blank_and_strip :
    load_last_id none = none ∧
    (∀ s : String, pyStrip s = "" → load_last_id (some s) = none) ∧
    (∀ s : String, pyStrip s ≠ "" → load_last_id (some s) = some (pyStrip s)) := by
  refine ⟨rfl, ?_, ?_⟩
  · intro s h
    show (if pyStrip s = "" then none else some (pyStrip s)) = none
    rw [if_pos h]
  · intro s h
    show (if pyStrip s = "" then none else some (pyStrip s)) = some (pyStrip s)
    rw [if_neg h]

theorem load_last_id_blank_and_strip_witness :
    load_last_id (some "   ") = none ∧ load_last_id (some " a ") = some "a" := by
  constructor
  · exact load_last_id_blank_and_strip.2.1 "   " (by decide)
  · have h := load_last_id_blank_and_strip.2.2 " a " (by decide)
    rw [h]; decide

/-! ### Claim C6 — latest-item selection is stable -/

/-- Claim C6 (confirmed): latest-item selection is stable.  For every
entry list whose dict entries are non-empty, `pick_latest_content_id`
returns the `content_id` of the dict entry at some position `i` whose
score is maximal and strictly above the score of every earlier dict
entry — i.e. the earliest of the items sharing the maximal recency
score, as a stable descending sort produces. -/
theorem pick_latest_stable (entries : List Entry)
    (h : validDicts entries ≠ []) :
    ∃ i, ∃ hi : i < (validDicts entries).length,
      pick_latest_content_id entries =
        dictGet ((validDicts entries).get ⟨i, hi⟩) "content_id" ∧
      (∀ j, ∀ hj : j < (validDicts entries).length,
        score ((validDicts entries).get ⟨j, hj⟩) ≤
          score ((validDicts entries).get ⟨i, hi⟩)) ∧
      (∀ j, ∀ hj : j < (validDicts entries).length, j < i →
        score ((validDicts entries).get ⟨j, hj⟩) <
          score ((validDicts entries).get ⟨i, hi⟩)) := by
  obtain ⟨i, hi, hp, hmax, hstrict⟩ := pickTop_first_argmax (validDicts entries) h
  have hh := sortByScoreDesc_head (validDicts entries)
  rw [hp] at hh
  cases hs : sortByScoreDesc (validDicts entries) with
  | nil => rw [hs] at hh; simp at hh
  | cons top rest =>
    rw [hs] at hh
    have htop : top = (validDicts entries).get ⟨i, hi⟩ := by
      simpa using hh
    refine ⟨i, hi, ?_, hmax, hstrict⟩
    unfold pick_latest_content_id
    rw [hs, htop]

theorem pick_latest_stable_witness :
    validDicts
        [Entry.dict [("content_id", PyVal.vStr "a"),
                     ("date", PyVal.vStr "2026:01:02 09:00:00")],
         Entry.dict [("content_id", PyVal.vStr "b"),
                     ("date", PyVal.vStr "2026:01:02 09:00:00")]] ≠ [] ∧
    pick_latest_content_id
        [Entry.dict [("content_id", PyVal.vStr "a"),
                     ("date", PyVal.vStr "2026:01:02 09:00:00")],
         Entry.dict [("content_id", PyVal.vStr "b"),
                     ("date", PyVal.vStr "2026:01:02 09:00:00")]] = PyVal.vStr "a" ∧
    ∃ i, ∃ hi : i < (validDicts
        [Entry.dict [("content_id", PyVal.vStr "a"),
                     ("date", PyVal.vStr "2026:01:02 09:00:00")],
         Entry.dict [("content_id", PyVal.vStr "b"),
                     ("date", PyVal.vStr "2026:01:02 09:00:00")]]).length,
      pick_latest_content_id
          [Entry.dict [("content_id", PyVal.vStr "a"),
                       ("date", PyVal.vStr "2026:01:02 09:00:00")],
           Entry.dict [("content_id", PyVal.vStr "b"),
                       ("date", PyVal.vStr "2026:01:02 09:00:00")]] =
        dictGet ((validDicts
            [Entry.dict [("content_id", PyVal.vStr "a"),
                         ("date", PyVal.vStr "2026:01:02 09:00:00")],
             Entry.dict [("content_id", PyVal.vStr "b"),
                         ("date", PyVal.vStr "2026:01:02 09:00:00")]]).get ⟨i, hi⟩)
          "content_id" := by
  refine ⟨by decide, by decide, ?_⟩
  obtain ⟨i, hi, heq, hmax, hstrict⟩ := pick_latest_stable
    [Entry.dict [("content_id", PyVal.vStr "a"),
                 ("date", PyVal.vStr "2026:01:02 09:00:00")],
     Entry.dict [("content_id", PyVal.vStr "b"),
                 ("date", PyVal.vStr "2026:01:02 09:00:00")]] (by decide)
  exact ⟨i, hi, heq⟩

/-! ### Claim C7 — a directly returned content_id is authoritative -/

/-- Claim C7 (confirmed): when the bounded upload returns a (truthy)
content_id with no error, reconciliation treats it as authoritative —
the catalog listing is not called a second time, no diff is computed,
and the select targets exactly that id. -/
theorem reconcile_confirmed_direct
    (lastId : Option String) (beforeList afterList : List Entry) (cid : PyVal)
    (h : truthy cid = true) :
    reconcile lastId beforeList (cid, none) afterList =
      { afterListed := false
        newItems := none
        selected := some cid
        saved := some cid
        deleteAttempted := deleteDecision lastId cid } := by
  have he : effContentId (cid, none) = cid := rfl
  unfold reconcile
  rw [he]
  simp [h]

theorem reconcile_confirmed_direct_witness :
    truthy (PyVal.vStr "abc123") = true ∧
    reconcile none [Entry.dict [("content_id", PyVal.vStr "x1")]]
        (PyVal.vStr "abc123", none)
        [Entry.dict [("content_id", PyVal.vStr "x1")]] =
      { afterListed := false
        newItems := none
        selected := some (PyVal.vStr "abc123")
        saved := some (PyVal.vStr "abc123")
        deleteAttempted := none } := by
  refine ⟨by decide, ?_⟩
  have h := reconcile_confirmed_direct none
    [Entry.dict [("content_id", PyVal.vStr "x1")]]
    [Entry.dict [("content_id", PyVal.vStr "x1")]]
    (PyVal.vStr "abc123") (by decide)
  rw [h]
  rfl

/-! ### Claim C1 — identical snapshots after a timeout -/

/-- Counterexample to claim C1 as stated: the upload times out, the
after-snapshot is identical to the (non-empty) before-snapshot, and
diffing indeed yields no new items — yet reconciliation does NOT stop
at `UNRESOLVED`: the full-after-snapshot fallback picks `"x1"`, a
select is issued for it, the persisted id is overwritten, and a delete
of the old persisted id `"old"` is attempted. -/
theorem reconcile_identical_nonempty_selects :
    reconcile (some "old") [Entry.dict [("content_id", PyVal.vStr "x1")]]
        (PyVal.vNone, some (Err.timeoutError "Upload timed out waiting for image_added event"))
        [Entry.dict [("content_id", PyVal.vStr "x1")]] =
      { afterListed := true
        newItems := some []
        selected := some (PyVal.vStr "x1")
        saved := some (PyVal.vStr "x1")
        deleteAttempted := some "old" } := by
  decide

/-- Claim C1 (corrected): when the upload times out or returns no
truthy content_id and the after-snapshot is identical to the
before-snapshot, diffing indeed yields no new items — but
reconciliation reaches `UNRESOLVED` (no select, no delete, persisted
last id untouched) only when latest-item selection on the full
(identical) after-snapshot also yields no truthy content_id, e.g. when
the snapshots are empty; otherwise the fallback selects from the full
after-snapshot. -/
theorem reconcile_identical_unresolved
    (lastId : Option String) (snapshot : List Entry) (u : PyVal × Option Err)
    (h1 : truthy (effContentId u) = false)
    (h2 : truthy (pick_latest_content_id snapshot) = false) :
    new_items snapshot snapshot = [] ∧
    reconcile lastId snapshot u snapshot =
      { afterListed := true
        newItems := some []
        selected := none
        saved := none
        deleteAttempted := none } := by
  refine ⟨new_items_self snapshot, ?_⟩
  rw [reconcile_falsy lastId snapshot u snapshot h1, reconcileNoId_eq,
    new_items_self snapshot]
  have hp : pyOr (pick_latest_content_id ([] : List Entry))
      (pick_latest_content_id snapshot) = pick_latest_content_id snapshot := rfl
  rw [hp, h2]
  simp

theorem reconcile_identical_unresolved_witness :
    truthy (effContentId (PyVal.vNone,
        some (Err.timeoutError "Upload timed out waiting for image_added event"))) = false ∧
    truthy (pick_latest_content_id ([] : List Entry)) = false ∧
    (new_items ([] : List Entry) [] = [] ∧
      reconcile (some "old") []
          (PyVal.vNone,
            some (Err.timeoutError "Upload timed out waiting for image_added event")) [] =
        { afterListed := true
          newItems := some []
          selected := none
          saved := none
          deleteAttempted := none }) :=
  ⟨by decide, by decide,
    reconcile_identical_unresolved (some "old") []
      (PyVal.vNone, some (Err.timeoutError "Upload timed out waiting for image_added event"))
      (by decide) (by decide)⟩

/-! ### Claim C5 — subset-first selection with full-list fallback -/

/-- Counterexample to claim C5 as stated: after a timeout the new-items
subset is NON-empty (it holds the dict `{timestamp: 5}`), yet the full
after-snapshot is still used as the fallback, because latest-item
selection on the subset returns `None` (its only item lacks a
content_id); the select then targets `"a"` — an id from the full
list that was already present before the upload. -/
theorem reconcile_fallback_despite_nonempty_subset :
    new_items [Entry.dict [("content_id", PyVal.vStr "a")]]
        [Entry.dict [("content_id", PyVal.vStr "a"), ("timestamp", PyVal.vNum 10)],
         Entry.dict [("timestamp", PyVal.vNum 5)]] =
      [Entry.dict [("timestamp", PyVal.vNum 5)]] ∧
    pick_latest_content_id [Entry.dict [("timestamp", PyVal.vNum 5)]] = PyVal.vNone ∧
    (reconcile none [Entry.dict [("content_id", PyVal.vStr "a")]]
        (PyVal.vNone, some (Err.timeoutError "Upload timed out waiting for image_added event"))
        [Entry.dict [("content_id", PyVal.vStr "a"), ("timestamp", PyVal.vNum 10)],
         Entry.dict [("timestamp", PyVal.vNum 5)]]).selected =
      some (PyVal.vStr "a") := by
  refine ⟨by decide, by decide, by decide⟩

/-- Claim C5 (corrected): on the no-id path, latest-item selection is
applied first to the new-items subset and its winner, whenever truthy,
is what gets selected — never merged with the full list's; the full
after-snapshot is used as a fallback exactly when the subset's
selection yields no truthy content_id, which happens in particular
when the subset is empty but also when its top-ranked item lacks a
content_id. -/
theorem reconcile_subset_priority
    (lastId : Option String) (beforeList afterList : List Entry)
    (u : PyVal × Option Err)
    (h1 : truthy (effContentId u) = false) :
    (reconcile lastId beforeList u afterList).newItems =
        some (new_items beforeList afterList) ∧
    (truthy (pick_latest_content_id (new_items beforeList afterList)) = true →
      (reconcile lastId beforeList u afterList).selected =
        some (pick_latest_content_id (new_items beforeList afterList))) ∧
    (truthy (pick_latest_content_id (new_items beforeList afterList)) = false →
      (reconcile lastId beforeList u afterList).selected =
        (if truthy (pick_latest_content_id afterList) = true then
          some (pick_latest_content_id afterList)
        else none)) := by
  rw [reconcile_falsy lastId beforeList u afterList h1, reconcileNoId_eq]
  refine ⟨?_, ?_, ?_⟩
  · by_cases hc : truthy (pyOr (pick_latest_content_id (new_items beforeList afterList))
        (pick_latest_content_id afterList)) = true <;> simp [hc]
  · intro h2
    have hp : pyOr (pick_latest_content_id (new_items beforeList afterList))
        (pick_latest_content_id afterList) =
          pick_latest_content_id (new_items beforeList afterList) := by
      simp [pyOr, h2]
    rw [hp, h2]
    simp
  · intro h2
    have hp : pyOr (pick_latest_content_id (new_items beforeList afterList))
        (pick_latest_content_id afterList) = pick_latest_content_id afterList := by
      simp [pyOr, h2]
    rw [hp]
    by_cases h3 : truthy (pick_latest_content_id afterList) = true
    · simp [h3]
    · simp only [Bool.not_eq_true] at h3
      rw [h3]
      simp

theorem reconcile_subset_priority_witness :
    truthy (effContentId (PyVal.vNone, none)) = false ∧
    truthy (pick_latest_content_id
        (new_items [] [Entry.dict [("content_id", PyVal.vStr "n")]])) = true ∧
    (reconcile none [] (PyVal.vNone, none)
        [Entry.dict [("content_id", PyVal.vStr "n")]]).selected =
      some (pick_latest_content_id
        (new_items [] [Entry.dict [("content_id", PyVal.vStr "n")]])) :=
  ⟨by decide, by decide,
    (reconcile_subset_priority none [] [Entry.dict [("content_id", PyVal.vStr "n")]]
        (PyVal.vNone, none) (by decide)).2.1 (by decide)⟩

/-! ### Claim C2 — catalog diffing -/

/-- Counterexample to claim C2 as stated: with `before = []` and
`after = [{}]` the valid-item id sets of the two snapshots are both
empty, hence disjoint, so the claim requires the diff output to be
exactly `after`'s valid items — the empty sequence.  The code instead
outputs the id-less dict `{}` itself. -/
theorem new_items_includes_idless_dict :
    specValidIds ([] : List Entry) = [] ∧
    specValidIds [Entry.dict []] = [] ∧
    specValidItems [Entry.dict []] = [] ∧
    new_items [] [Entry.dict []] = [Entry.dict []] ∧
    new_items [] [Entry.dict []] ≠ specValidItems [Entry.dict []] := by
  decide

/-- Claim C2 (corrected): the diff output is the ordered subsequence of
`after`'s DICT items (not only those with a content_id) whose
`get("content_id")` value — `None` when the key is missing — does not
occur among the values collected from `before`'s dict items.  Hence:
no output item's content_id value is ever in the before id set; when
no dict item of `after` has its value in the before set the output is
exactly `after`'s dict items in original order; and when every dict
item of `after` has its value in the before set the output is empty. -/
theorem new_items_characterization (beforeList afterList : List Entry) :
    (new_items beforeList afterList).Sublist (afterList.filter isDictB) ∧
    (∀ e ∈ new_items beforeList afterList,
      ∃ it, e = Entry.dict it ∧ dictGet it "content_id" ∉ before_ids beforeList) ∧
    ((∀ e ∈ afterList, isDictB e = true → entryNewPred beforeList e = true) →
      new_items beforeList afterList = afterList.filter isDictB) ∧
    ((∀ e ∈ afterList, entryNewPred beforeList e = false) →
      new_items beforeList afterList = []) := by
  refine ⟨?_, ?_, ?_, ?_⟩
  · refine List.monotone_filter_right afterList ?_
    intro e he
    cases e with
    | dict it => rfl
    | nondict => exact absurd he (by simp [entryNewPred])
  · intro e he
    obtain ⟨hmem, hpred⟩ := List.mem_filter.mp he
    cases e with
    | dict it =>
      refine ⟨it, rfl, ?_⟩
      simpa [entryNewPred] using hpred
    | nondict => exact absurd hpred (by simp [entryNewPred])
  · intro h
    refine List.filter_congr ?_
    intro e he
    cases e with
    | dict it => rw [h (.dict it) he rfl]; rfl
    | nondict => rfl
  · intro h
    refine List.filter_eq_nil_iff.mpr ?_
    intro e he
    rw [h e he]
    simp

theorem new_items_characterization_witness :
    (∀ e ∈ [Entry.dict [("content_id", PyVal.vStr "c")], Entry.nondict],
      isDictB e = true →
        entryNewPred [Entry.dict [("content_id", PyVal.vStr "b")]] e = true) ∧
    new_items [Entry.dict [("content_id", PyVal.vStr "b")]]
        [Entry.dict [("content_id", PyVal.vStr "c")], Entry.nondict] =
      List.filter isDictB
        [Entry.dict [("content_id", PyVal.vStr "c")], Entry.nondict] :=
  ⟨by decide,
    (new_items_characterization [Entry.dict [("content_id", PyVal.vStr "b")]]
      [Entry.dict [("content_id", PyVal.vStr "c")], Entry.nondict]).2.2.1 (by decide)⟩

/-! ### Claim C3 — entries lacking a content_id -/

/-- Counterexample to claim C3 as stated: a dict entry lacking a
content_id is NOT excluded from both snapshots — in the before
snapshot it contributes `None` to the exclusion set, and in the after
snapshot (here with `before = []`) it appears in the new-items
output. -/
theorem idless_dict_not_excluded :
    before_ids [Entry.dict [("kind", PyVal.vStr "art")]] = [PyVal.vNone] ∧
    new_items [] [Entry.dict [("kind", PyVal.vStr "art")]] =
      [Entry.dict [("kind", PyVal.vStr "art")]] := by
  decide

/-- Claim C3 (corrected): an entry that is not a dict is excluded from
both snapshots entirely; but a dict entry lacking a content_id is
kept — in the before snapshot it contributes the missing-value marker
`None` to the exclusion set, and in the after snapshot it is included
in the new-items output exactly when `None` is not in the before
exclusion set (i.e. when no before dict entry lacks a content_id). -/
theorem missing_id_entries_behavior (beforeList afterList : List Entry) (it : Item) :
    before_ids (Entry.nondict :: beforeList) = before_ids beforeList ∧
    new_items beforeList (Entry.nondict :: afterList) = new_items beforeList afterList ∧
    (dictGet it "content_id" = PyVal.vNone →
      PyVal.vNone ∈ before_ids (Entry.dict it :: beforeList)) ∧
    (dictGet it "content_id" = PyVal.vNone →
      new_items beforeList (Entry.dict it :: afterList) =
        (if PyVal.vNone ∈ before_ids beforeList then new_items beforeList afterList
         else Entry.dict it :: new_items beforeList afterList)) := by
  refine ⟨?_, ?_, ?_, ?_⟩
  · simp [before_ids]
  · simp [new_items, entryNewPred]
  · intro h
    simp [before_ids, List.filterMap_cons, h]
  · intro h
    by_cases hm : PyVal.vNone ∈ before_ids beforeList
    · simp [new_items, entryNewPred, h, hm]
    · simp [new_items, entryNewPred, h, hm]

theorem missing_id_entries_behavior_witness :
    dictGet ([] : Item) "content_id" = PyVal.vNone ∧
    PyVal.vNone ∈ before_ids [Entry.dict []] :=
  ⟨by decide, (missing_id_entries_behavior [] [] []).2.2.1 (by decide)⟩
